import Mathlib

/-!
Verification of the vircadia-web-sdk transport layer against its specification.

The development shallowly embeds the TypeScript sources:
  * `src/domain/networking/udt/Packet.ts` (header framing: readHeader / writeHeader,
    the write / received / copy constructors, writeSequenceNumber / writeMessageNumber);
  * `DomainServer.ts` (connection state machine: connect / disconnect / setState);
  * the `NodeList` registry surface exercised by `tests/domain/networking/NodeList.unit.test.js`.

JavaScript `DataView` buffers are modelled as a length together with a byte
function; JavaScript 32-bit bitwise operators (`&`, `|`, `<<`, signed `>>`) are
modelled on `Nat` / `Int` with the ECMA ToUint32 / ToInt32 conversions made
explicit.  Fallible operations (failed `assert`, `RangeError`) return `Except`.
-/

/-! ### JavaScript numeric semantics (ECMA 32-bit bitwise operators) -/

/-- ToUint32 of a non-negative integral JavaScript number. -/
def toUint32 (x : Nat) : Nat := x % 4294967296

/-- Bit pattern (ToUint32) of an integral JavaScript number that may be negative. -/
def intPat (i : Int) : Nat := (i % 4294967296).toNat

/-- JavaScript `a & b` on non-negative integral numbers, as the unsigned bit pattern
of the 32-bit result. -/
def jsAnd (a b : Nat) : Nat := toUint32 a &&& toUint32 b

/-- JavaScript `a | b` on non-negative integral numbers, as the unsigned bit pattern
of the 32-bit result. -/
def jsOr (a b : Nat) : Nat := toUint32 a ||| toUint32 b

/-- JavaScript `i << k` for an integral (possibly negative) `i`, as the unsigned bit
pattern of the 32-bit result. -/
def jsShlI (i : Int) (k : Nat) : Nat := intPat i * 2 ^ (k % 32) % 4294967296

/-- JavaScript signed right shift `a >> k` for a non-negative `a` (e.g. a
`DataView.getUint32` result): ToInt32 of the pattern, then an arithmetic shift,
which is floor division by `2 ^ k`. -/
def jsShrS (a : Nat) (k : Nat) : Int :=
  (toUint32 a / 2 ^ (k % 32) : Nat) -
    (if toUint32 a < 2147483648 then (0 : Int) else 2 ^ (32 - k % 32))

/-! ### Byte buffers (JavaScript `DataView` over an `ArrayBuffer`) -/

/-- A byte buffer: `size` bytes, `byteAt i` being byte `i`. -/
structure Buffer where
  size : Nat
  byteAt : Nat → Nat

/-- All in-range bytes are genuine byte values (true of every JavaScript buffer). -/
def Buffer.wf (b : Buffer) : Prop := ∀ i, b.byteAt i < 256

instance (b : Buffer) : DecidablePred fun i => b.byteAt i < 256 := fun _ => inferInstance

/-- A zero-filled buffer of `n` bytes (`new ArrayBuffer(n)`). -/
def Buffer.zeros (n : Nat) : Buffer := ⟨n, fun _ => 0⟩

/-- A buffer holding the given bytes (used to build concrete received packets). -/
def Buffer.ofList (l : List Nat) : Buffer := ⟨l.length, fun i => l.getD i 0⟩

/-- Write one byte (reduced mod 256, as a typed-array store does). -/
def Buffer.setByte (b : Buffer) (p v : Nat) : Buffer :=
  ⟨b.size, fun i => if i = p then v % 256 else b.byteAt i⟩

/-- The little-endian 32-bit value at offset `p` (the arithmetic part of
`DataView.getUint32(p, true)`). -/
def Buffer.getUint32LE (b : Buffer) (p : Nat) : Nat :=
  b.byteAt p + 256 * b.byteAt (p + 1) + 65536 * b.byteAt (p + 2) +
    16777216 * b.byteAt (p + 3)

/-- Store a 32-bit value little-endian at offset `p` (the arithmetic part of
`DataView.setUint32(p, w, true)`; the value is taken mod 2^32 as ToUint32 does,
and the four bytes `p .. p+3` are replaced). -/
def Buffer.setUint32LE (b : Buffer) (p w : Nat) : Buffer :=
  ⟨b.size, fun i =>
    if i = p then w % 256
    else if i = p + 1 then w / 256 % 256
    else if i = p + 2 then w / 65536 % 256
    else if i = p + 3 then w / 16777216 % 256
    else b.byteAt i⟩

/-- Errors a packet operation can surface: a failed `assert` call, or a
`DataView` access out of range. -/
inductive JsErr where
  | assertFail (fn msg : String)
  | rangeError
  deriving DecidableEq, Repr

/-- `DataView.getUint32` with its bounds check. -/
def dvGetUint32 (b : Buffer) (p : Nat) : Except JsErr Nat :=
  if p + 4 ≤ b.size then .ok (b.getUint32LE p) else .error .rangeError

/-- `DataView.setUint32` with its bounds check. -/
def dvSetUint32 (b : Buffer) (p w : Nat) : Except JsErr Buffer :=
  if p + 4 ≤ b.size then .ok (b.setUint32LE p w) else .error .rangeError

/-! ### UDT constants

`UDT.ts` itself is not among the provided sources (only `Packet.ts`, which
imports it, and the unit tests are).  Modelled from the spec: the packet header
wire layout of section 6 — a 32-bit little-endian word whose high bit is the
control bit, below it the reliability and message bits and a 2-bit obfuscation
level, the low bits the sequence number; if the message bit is set, a second
word with a 2-bit packet position in bits 30–31 above the message number, then
a 32-bit part number.  The concrete mask values are fixed by the repository's
own test vectors (`Packet.unit.test.js`: word `0x40000009` decodes to message
number 9 and position LAST=1, so the position field is bits 30–31; word
`0x660a28da` decodes as reliable and part-of-message with zero obfuscation;
`BasePacket.unit.test.js` fixes `maxPayloadSize`). -/

namespace UDT

def CONTROL_BIT_MASK : Nat := 2147483648
def RELIABILITY_BIT_MASK : Nat := 1073741824
def MESSAGE_BIT_MASK : Nat := 536870912
def OBFUSCATION_LEVEL_BIT_MASK : Nat := 402653184
def OBFUSCATION_LEVEL_OFFSET : Nat := 27
def BIT_FIELD_MASK : Nat := 4160749568
def SEQUENCE_NUMBER_BIT_MASK : Nat := 134217727
def PACKET_POSITION_OFFSET : Nat := 30
def MESSAGE_NUMBER_MASK : Nat := 1073741823
def MAX_PACKET_SIZE : Nat := 1464

end UDT

/-! ### Packet state

The TypeScript code keeps all packet state in a shared `MessageData` record;
the fields below are the ones `Packet.ts` reads and writes.  `MessageData.ts`
is not among the provided sources; the field inventory and its zero/false
defaults are modelled from the spec's Packet data model and pinned by
`BasePacket.unit.test.js` / `Packet.unit.test.js` (a fresh packet is
zero-filled with cursor 0, not reliable, not part of a message, obfuscation
level 0, position ONLY=0). -/

structure MessageData where
  data : Buffer
  packetSize : Nat
  dataPosition : Nat
  isReliable : Bool
  isPartOfMessage : Bool
  obfuscationLevel : Int
  sequenceNumber : Nat
  messageNumber : Nat
  packetPosition : Int
  messagePartNumber : Nat

/-- A fresh zero `MessageData` over a zero-filled buffer of `n` bytes. -/
def freshMessageData (n : Nat) : MessageData :=
  { data := Buffer.zeros n, packetSize := n, dataPosition := 0,
    isReliable := false, isPartOfMessage := false, obfuscationLevel := 0,
    sequenceNumber := 0, messageNumber := 0, packetPosition := 0,
    messagePartNumber := 0 }

namespace Packet

/-- `Packet.PacketPosition` (Packet.ts lines 65–71). -/
def PacketPosition.ONLY : Nat := 0
def PacketPosition.FIRST : Nat := 2
def PacketPosition.MIDDLE : Nat := 3
def PacketPosition.LAST : Nat := 1

/-- `Packet.ObfuscationLevel.NoObfuscation` (Packet.ts line 90). -/
def ObfuscationLevel.NoObfuscation : Int := 0

/-- `Packet.totalHeaderSize(isPartOfMessage)` (Packet.ts lines 134–141). -/
def totalHeaderSize (isPartOfMessage : Bool) : Nat :=
  4 + (if isPartOfMessage then 8 else 0)

/-- The `seqNumBitField` local of `Packet.#writeHeader` (Packet.ts lines 319–328):
the sequence number ored with the reliability, message, and obfuscation bits. -/
def seqNumBitFieldOf (md : MessageData) : Nat :=
  let f0 := md.sequenceNumber
  let f1 := if md.isReliable then jsOr f0 UDT.RELIABILITY_BIT_MASK else f0
  let f2 := if md.isPartOfMessage then jsOr f1 UDT.MESSAGE_BIT_MASK else f1
  if md.obfuscationLevel ≠ ObfuscationLevel.NoObfuscation then
    jsOr f2 (jsShlI md.obfuscationLevel UDT.OBFUSCATION_LEVEL_OFFSET)
  else f2

/-- The `messageNumberAndBitField` local of `Packet.#writeHeader` (Packet.ts lines
333–334): the message number ored with the position shifted into bits 30–31. -/
def messageNumberAndBitFieldOf (md : MessageData) : Nat :=
  jsOr md.messageNumber (jsShlI md.packetPosition UDT.PACKET_POSITION_OFFSET)

/-- `Packet.#writeHeader(isOverwriting)` (Packet.ts lines 306–348). -/
def writeHeader (md : MessageData) (isOverwriting : Bool) : Except JsErr MessageData :=
  if jsAnd md.sequenceNumber UDT.BIT_FIELD_MASK ≠ 0 then
    .error (.assertFail "Packet.writeHeader()" "Sequence number is overflowing into bit field")
  else
    let originalDataPosition := md.dataPosition
    let md := if isOverwriting then { md with dataPosition := 0 } else md
    match dvSetUint32 md.data md.dataPosition (seqNumBitFieldOf md) with
    | .error e => .error e
    | .ok data1 =>
      let md := { md with data := data1, dataPosition := md.dataPosition + 4 }
      if md.isPartOfMessage then
        match dvSetUint32 md.data md.dataPosition (messageNumberAndBitFieldOf md) with
        | .error e => .error e
        | .ok data2 =>
          let md := { md with data := data2, dataPosition := md.dataPosition + 4 }
          match dvSetUint32 md.data md.dataPosition md.messagePartNumber with
          | .error e => .error e
          | .ok data3 =>
            let md := { md with data := data3, dataPosition := md.dataPosition + 4 }
            .ok (if isOverwriting then { md with dataPosition := originalDataPosition } else md)
      else
        .ok (if isOverwriting then { md with dataPosition := originalDataPosition } else md)

/-- `Packet.#readHeader()` (Packet.ts lines 275–303). -/
def readHeader (md : MessageData) : Except JsErr MessageData :=
  match dvGetUint32 md.data md.dataPosition with
  | .error e => .error e
  | .ok seqNumBitField =>
    if jsAnd seqNumBitField UDT.CONTROL_BIT_MASK ≠ 0 then
      .error (.assertFail "Packet.readHeader()" "This should be a data packet!")
    else
      let md := { md with
        isReliable := decide (0 < jsAnd seqNumBitField UDT.RELIABILITY_BIT_MASK),
        isPartOfMessage := decide (0 < jsAnd seqNumBitField UDT.MESSAGE_BIT_MASK),
        obfuscationLevel :=
          jsShrS (jsAnd seqNumBitField UDT.OBFUSCATION_LEVEL_BIT_MASK) UDT.OBFUSCATION_LEVEL_OFFSET,
        sequenceNumber := jsAnd seqNumBitField UDT.SEQUENCE_NUMBER_BIT_MASK,
        dataPosition := md.dataPosition + 4 }
      if md.isPartOfMessage then
        match dvGetUint32 md.data md.dataPosition with
        | .error e => .error e
        | .ok messageNumberAndBitField =>
          let md := { md with
            dataPosition := md.dataPosition + 4,
            messageNumber := jsAnd messageNumberAndBitField UDT.MESSAGE_NUMBER_MASK,
            packetPosition := jsShrS messageNumberAndBitField UDT.PACKET_POSITION_OFFSET }
          match dvGetUint32 md.data md.dataPosition with
          | .error e => .error e
          | .ok part =>
            .ok { md with messagePartNumber := part, dataPosition := md.dataPosition + 4 }
      else
        .ok { md with messageNumber := 0, packetPosition := (PacketPosition.ONLY : Int),
                      messagePartNumber := 0 }

/-- The `BasePacket(size)` allocation used by the write-mode `Packet` constructor.
Modelled from the spec: `BasePacket.ts` is not among the provided sources; per
spec section 4.1 a `-1` size allocates the transport's maximum payload size, and
`BasePacket.unit.test.js` shows a fresh packet is a zero-filled buffer of the
requested size with cursor 0.  A negative `ArrayBuffer` length is a
`RangeError`. -/
def basePacketAlloc (size : Int) : Except JsErr MessageData :=
  if size = -1 then .ok (freshMessageData UDT.MAX_PACKET_SIZE)
  else if size < 0 then .error .rangeError
  else .ok (freshMessageData size.toNat)

/-- The write-mode constructor `new Packet(size, isReliable, isPartOfMessage)`
(Packet.ts lines 149–159). -/
def mkWrite (size : Int) (isReliable isPartOfMessage : Bool) : Except JsErr MessageData :=
  match basePacketAlloc
      (if size = -1 then -1 else (totalHeaderSize isPartOfMessage : Int) + size) with
  | .error e => .error e
  | .ok md =>
    writeHeader { md with isReliable := isReliable, isPartOfMessage := isPartOfMessage } false

/-- The received-data constructor `new Packet(data, size, senderSockAddr)` /
`Packet.fromReceivedPacket` (Packet.ts lines 107–110 and 161–176).  The `Bool`
in the result records whether the "Undo obfuscation : Not implemented!" warning
was logged; the payload is never modified. -/
def fromReceivedPacket (data : Buffer) (size : Nat) : Except JsErr (MessageData × Bool) :=
  let md : MessageData :=
    { data := data, packetSize := size, dataPosition := 0,
      isReliable := false, isPartOfMessage := false, obfuscationLevel := 0,
      sequenceNumber := 0, messageNumber := 0, packetPosition := 0,
      messagePartNumber := 0 }
  match readHeader md with
  | .error e => .error e
  | .ok md => .ok (md, decide (md.obfuscationLevel ≠ ObfuscationLevel.NoObfuscation))

/-- `Packet.writeSequenceNumber(sequenceNumber)` (Packet.ts lines 254–258). -/
def writeSequenceNumber (md : MessageData) (sequenceNumber : Nat) : Except JsErr MessageData :=
  writeHeader { md with sequenceNumber := sequenceNumber } true

/-- `Packet.writeMessageNumber(messageNumber, position, messagePartNumber)`
(Packet.ts lines 242–248). -/
def writeMessageNumber (md : MessageData) (messageNumber : Nat) (position : Int)
    (messagePartNumber : Nat) : Except JsErr MessageData :=
  writeHeader { md with isPartOfMessage := true, messageNumber := messageNumber,
                        packetPosition := position,
                        messagePartNumber := messagePartNumber } true

end Packet

/-! ### Toolkit: buffer lemmas -/

theorem Buffer.size_setUint32LE (b : Buffer) (p w : Nat) :
    (b.setUint32LE p w).size = b.size := rfl

theorem Buffer.byteAt_setUint32LE_of_lt (b : Buffer) (p w i : Nat) (h : i < p) :
    (b.setUint32LE p w).byteAt i = b.byteAt i := by
  have h1 : i ≠ p := by omega
  have h2 : i ≠ p + 1 := by omega
  have h3 : i ≠ p + 2 := by omega
  have h4 : i ≠ p + 3 := by omega
  simp [Buffer.setUint32LE, h1, h2, h3, h4]

theorem Buffer.byteAt_setUint32LE_of_ge (b : Buffer) (p w i : Nat) (h : p + 4 ≤ i) :
    (b.setUint32LE p w).byteAt i = b.byteAt i := by
  have h1 : i ≠ p := by omega
  have h2 : i ≠ p + 1 := by omega
  have h3 : i ≠ p + 2 := by omega
  have h4 : i ≠ p + 3 := by omega
  simp [Buffer.setUint32LE, h1, h2, h3, h4]

theorem Buffer.getUint32LE_setUint32LE_self (b : Buffer) (p w : Nat) :
    (b.setUint32LE p w).getUint32LE p = w % 4294967296 := by
  have h1 : p + 1 ≠ p := by omega
  have h2 : p + 2 ≠ p := by omega
  have h2' : p + 2 ≠ p + 1 := by omega
  have h3 : p + 3 ≠ p := by omega
  have h3' : p + 3 ≠ p + 1 := by omega
  have h3'' : p + 3 ≠ p + 2 := by omega
  simp [Buffer.getUint32LE, Buffer.setUint32LE, h1, h2, h2', h3, h3', h3'']
  omega

theorem Buffer.getUint32LE_setUint32LE_disjoint (b : Buffer) (p q w : Nat)
    (h : p + 4 ≤ q ∨ q + 4 ≤ p) : (b.setUint32LE q w).getUint32LE p = b.getUint32LE p := by
  have h1 : p ≠ q ∧ p ≠ q + 1 ∧ p ≠ q + 2 ∧ p ≠ q + 3 := by omega
  have h2 : p + 1 ≠ q ∧ p + 1 ≠ q + 1 ∧ p + 1 ≠ q + 2 ∧ p + 1 ≠ q + 3 := by omega
  have h3 : p + 2 ≠ q ∧ p + 2 ≠ q + 1 ∧ p + 2 ≠ q + 2 ∧ p + 2 ≠ q + 3 := by omega
  have h4 : p + 3 ≠ q ∧ p + 3 ≠ q + 1 ∧ p + 3 ≠ q + 2 ∧ p + 3 ≠ q + 3 := by omega
  simp [Buffer.getUint32LE, Buffer.setUint32LE, h1.1, h1.2.1, h1.2.2.1, h1.2.2.2,
    h2.1, h2.2.1, h2.2.2.1, h2.2.2.2, h3.1, h3.2.1, h3.2.2.1, h3.2.2.2,
    h4.1, h4.2.1, h4.2.2.1, h4.2.2.2]

theorem Buffer.getUint32LE_lt (b : Buffer) (p : Nat) (hwf : b.wf) :
    b.getUint32LE p < 4294967296 := by
  have h0 := hwf p
  have h1 := hwf (p + 1)
  have h2 := hwf (p + 2)
  have h3 := hwf (p + 3)
  simp only [Buffer.getUint32LE]
  omega

theorem Buffer.wf_setUint32LE (b : Buffer) (p w : Nat) (hwf : b.wf) :
    (b.setUint32LE p w).wf := by
  intro i
  simp only [Buffer.setUint32LE]
  split
  · omega
  · split
    · omega
    · split
      · omega
      · split
        · omega
        · exact hwf i

theorem Buffer.wf_zeros (n : Nat) : (Buffer.zeros n).wf := by
  intro i
  simp [Buffer.zeros]

/-! ### Toolkit: 32-bit arithmetic lemmas -/

theorem toUint32_of_lt {x : Nat} (h : x < 4294967296) : toUint32 x = x := Nat.mod_eq_of_lt h

theorem jsAnd_eq_land {a b : Nat} (ha : a < 4294967296) (hb : b < 4294967296) :
    jsAnd a b = a &&& b := by
  simp [jsAnd, toUint32_of_lt ha, toUint32_of_lt hb]

theorem jsOr_eq_lor {a b : Nat} (ha : a < 4294967296) (hb : b < 4294967296) :
    jsOr a b = a ||| b := by
  simp [jsOr, toUint32_of_lt ha, toUint32_of_lt hb]

/-- Extracting any aligned bit field with `&&&` is a divide-and-mod. -/
theorem and_mask_extract (w k j : Nat) :
    w &&& 2 ^ k * (2 ^ j - 1) = 2 ^ k * (w / 2 ^ k % 2 ^ j) := by
  apply Nat.eq_of_testBit_eq
  intro i
  rw [Nat.testBit_and, Nat.testBit_mul_pow_two, Nat.testBit_mul_pow_two,
    Nat.testBit_mod_two_pow, Nat.testBit_two_pow_sub_one,
    ← Nat.shiftRight_eq_div_pow, Nat.testBit_shiftRight]
  by_cases h : k ≤ i
  · have hki : k + (i - k) = i := by omega
    rw [hki]
    simp only [ge_iff_le, h, decide_True, Bool.true_and]
    cases hw : w.testBit i <;> simp
  · simp [ge_iff_le, h]

theorem mul_pow_lor (k a c : Nat) : 2 ^ k * (a ||| c) = 2 ^ k * a ||| 2 ^ k * c := by
  apply Nat.eq_of_testBit_eq
  intro i
  simp [Nat.testBit_mul_pow_two, Nat.testBit_or, Bool.and_or_distrib_left]

/-- Merging a value into bits at-or-above `2 ^ k` leaves the low `k` bits alone
and ors the high parts. -/
theorem or_high_add (k a b c : Nat) (hb : b < 2 ^ k) :
    (2 ^ k * a + b) ||| 2 ^ k * c = 2 ^ k * (a ||| c) + b := by
  rw [Nat.mul_add_lt_is_or hb a, Nat.mul_add_lt_is_or hb (a ||| c), mul_pow_lor]
  rw [Nat.or_assoc, Nat.or_comm b (2 ^ k * c), ← Nat.or_assoc]

/-! Specializations of `and_mask_extract` to the concrete UDT masks. -/

theorem and_seq_mask (w : Nat) : w &&& 134217727 = w % 134217728 := by
  have h := and_mask_extract w 0 27
  norm_num at h
  exact h

theorem and_msgnum_mask (w : Nat) : w &&& 1073741823 = w % 1073741824 := by
  have h := and_mask_extract w 0 30
  norm_num at h
  exact h

theorem and_control_mask (w : Nat) : w &&& 2147483648 = 2147483648 * (w / 2147483648 % 2) := by
  have h := and_mask_extract w 31 1
  norm_num at h
  exact h

theorem and_reliability_mask (w : Nat) :
    w &&& 1073741824 = 1073741824 * (w / 1073741824 % 2) := by
  have h := and_mask_extract w 30 1
  norm_num at h
  exact h

theorem and_message_mask (w : Nat) : w &&& 536870912 = 536870912 * (w / 536870912 % 2) := by
  have h := and_mask_extract w 29 1
  norm_num at h
  exact h

theorem and_obfuscation_mask (w : Nat) :
    w &&& 402653184 = 134217728 * (w / 134217728 % 4) := by
  have h := and_mask_extract w 27 2
  norm_num at h
  exact h

theorem and_bitfield_mask (w : Nat) :
    w &&& 4160749568 = 134217728 * (w / 134217728 % 32) := by
  have h := and_mask_extract w 27 5
  norm_num at h
  exact h

theorem writeHeader_ok (md : MessageData) (ov : Bool)
    (hseq : jsAnd md.sequenceNumber UDT.BIT_FIELD_MASK = 0)
    (hdp : ov = false → md.dataPosition = 0)
    (hsz : Packet.totalHeaderSize md.isPartOfMessage ≤ md.data.size) :
    Packet.writeHeader md ov = .ok { md with
      data :=
        if md.isPartOfMessage then
          ((md.data.setUint32LE 0 (Packet.seqNumBitFieldOf md)).setUint32LE 4
            (Packet.messageNumberAndBitFieldOf md)).setUint32LE 8 md.messagePartNumber
        else md.data.setUint32LE 0 (Packet.seqNumBitFieldOf md),
      dataPosition := if ov then md.dataPosition
        else Packet.totalHeaderSize md.isPartOfMessage } := by
  cases hpm : md.isPartOfMessage
  · rw [hpm] at hsz
    have h4 : 4 ≤ md.data.size := by simpa [Packet.totalHeaderSize] using hsz
    cases ov
    · have h0 := hdp rfl
      simp [Packet.writeHeader, hseq, hpm, dvSetUint32, h0, h4, Packet.totalHeaderSize,
        Packet.seqNumBitFieldOf]
    · simp [Packet.writeHeader, hseq, hpm, dvSetUint32, h4, Packet.totalHeaderSize,
        Packet.seqNumBitFieldOf]
  · rw [hpm] at hsz
    have h12 : 12 ≤ md.data.size := by simpa [Packet.totalHeaderSize] using hsz
    have h4 : 4 ≤ md.data.size := by omega
    have h8 : 8 ≤ md.data.size := by omega
    cases ov
    · have h0 := hdp rfl
      simp [Packet.writeHeader, hseq, hpm, dvSetUint32, h0, h4, h8, h12,
        Buffer.size_setUint32LE, Packet.totalHeaderSize, Packet.seqNumBitFieldOf,
        Packet.messageNumberAndBitFieldOf]
    · simp [Packet.writeHeader, hseq, hpm, dvSetUint32, h4, h8, h12,
        Buffer.size_setUint32LE, Packet.totalHeaderSize, Packet.seqNumBitFieldOf,
        Packet.messageNumberAndBitFieldOf]

theorem readHeader_ok_notMsg (md : MessageData)
    (hdp : md.dataPosition = 0) (hsz : 4 ≤ md.data.size)
    (hctl : jsAnd (md.data.getUint32LE 0) UDT.CONTROL_BIT_MASK = 0)
    (hmsg : jsAnd (md.data.getUint32LE 0) UDT.MESSAGE_BIT_MASK = 0) :
    Packet.readHeader md = .ok { md with
      isReliable := decide (0 < jsAnd (md.data.getUint32LE 0) UDT.RELIABILITY_BIT_MASK),
      isPartOfMessage := false,
      obfuscationLevel := jsShrS (jsAnd (md.data.getUint32LE 0) UDT.OBFUSCATION_LEVEL_BIT_MASK)
        UDT.OBFUSCATION_LEVEL_OFFSET,
      sequenceNumber := jsAnd (md.data.getUint32LE 0) UDT.SEQUENCE_NUMBER_BIT_MASK,
      dataPosition := 4,
      messageNumber := 0, packetPosition := 0, messagePartNumber := 0 } := by
  simp [Packet.readHeader, dvGetUint32, hdp, hsz, hctl, hmsg, Packet.PacketPosition.ONLY]

theorem readHeader_ok_msg (md : MessageData)
    (hdp : md.dataPosition = 0) (hsz : 12 ≤ md.data.size)
    (hctl : jsAnd (md.data.getUint32LE 0) UDT.CONTROL_BIT_MASK = 0)
    (hmsg : 0 < jsAnd (md.data.getUint32LE 0) UDT.MESSAGE_BIT_MASK) :
    Packet.readHeader md = .ok { md with
      isReliable := decide (0 < jsAnd (md.data.getUint32LE 0) UDT.RELIABILITY_BIT_MASK),
      isPartOfMessage := true,
      obfuscationLevel := jsShrS (jsAnd (md.data.getUint32LE 0) UDT.OBFUSCATION_LEVEL_BIT_MASK)
        UDT.OBFUSCATION_LEVEL_OFFSET,
      sequenceNumber := jsAnd (md.data.getUint32LE 0) UDT.SEQUENCE_NUMBER_BIT_MASK,
      messageNumber := jsAnd (md.data.getUint32LE 4) UDT.MESSAGE_NUMBER_MASK,
      packetPosition := jsShrS (md.data.getUint32LE 4) UDT.PACKET_POSITION_OFFSET,
      messagePartNumber := md.data.getUint32LE 8,
      dataPosition := 12 } := by
  have h4 : 4 ≤ md.data.size := by omega
  have h8 : 8 ≤ md.data.size := by omega
  simp [Packet.readHeader, dvGetUint32, hdp, hsz, h4, h8, hctl, hmsg]

theorem lor_high (b c k : Nat) (hb : b < 2 ^ k) : b ||| 2 ^ k * c = 2 ^ k * c + b := by
  have h := or_high_add k 0 b c hb
  simpa using h

theorem intPat_ofNat (n : Nat) (h : n < 4294967296) : intPat (n : Int) = n := by
  unfold intPat
  omega

theorem jsAnd_bitfield_zero {x : Nat} (h : x < 134217728) : jsAnd x UDT.BIT_FIELD_MASK = 0 := by
  rw [UDT.BIT_FIELD_MASK, jsAnd_eq_land (by omega) (by norm_num), and_bitfield_mask]
  omega

theorem seqNumBitFieldOf_eval (md : MessageData) (hobf : md.obfuscationLevel = 0)
    (hseq : md.sequenceNumber < 134217728) :
    Packet.seqNumBitFieldOf md =
      (if md.isReliable then 1073741824 else 0) +
        (if md.isPartOfMessage then 536870912 else 0) + md.sequenceNumber := by
  have h32 : md.sequenceNumber < 4294967296 := by omega
  unfold Packet.seqNumBitFieldOf
  rw [hobf]
  simp only [Packet.ObfuscationLevel.NoObfuscation, ne_eq, not_true_eq_false, if_false,
    UDT.RELIABILITY_BIT_MASK, UDT.MESSAGE_BIT_MASK]
  cases hr : md.isReliable <;> cases hpm : md.isPartOfMessage <;>
    simp only [Bool.false_eq_true, if_false, if_true]
  · omega
  · rw [jsOr, toUint32_of_lt h32, toUint32_of_lt (by norm_num)]
    rw [(by norm_num : (536870912 : Nat) = 2 ^ 29 * 1)]
    rw [lor_high md.sequenceNumber 1 29 (by omega)]
    norm_num
  · rw [jsOr, toUint32_of_lt h32, toUint32_of_lt (by norm_num)]
    rw [(by norm_num : (1073741824 : Nat) = 2 ^ 30 * 1)]
    rw [lor_high md.sequenceNumber 1 30 (by omega)]
    norm_num
  · rw [jsOr, jsOr, toUint32_of_lt h32,
      toUint32_of_lt (by norm_num : (1073741824 : Nat) < 4294967296)]
    rw [(by norm_num : (1073741824 : Nat) = 2 ^ 30 * 1)]
    rw [lor_high md.sequenceNumber 1 30 (by omega)]
    rw [toUint32_of_lt (by omega),
      toUint32_of_lt (by norm_num : (536870912 : Nat) < 4294967296)]
    rw [(by norm_num : (2 : Nat) ^ 30 * 1 = 2 ^ 29 * 2)]
    rw [(by norm_num : (536870912 : Nat) = 2 ^ 29 * 1)]
    rw [or_high_add 29 2 md.sequenceNumber 1 (by omega)]
    norm_num
    decide

theorem messageNumberAndBitFieldOf_eval (md : MessageData) (p : Nat)
    (hpos : md.packetPosition = (p : Int)) (hp : p < 4) (hmn : md.messageNumber < 134217728) :
    Packet.messageNumberAndBitFieldOf md = 1073741824 * p + md.messageNumber := by
  unfold Packet.messageNumberAndBitFieldOf
  rw [hpos, jsShlI, intPat_ofNat p (by omega)]
  simp only [UDT.PACKET_POSITION_OFFSET]
  norm_num
  rw [Nat.mod_eq_of_lt (by omega)]
  rw [jsOr, toUint32_of_lt (by omega), toUint32_of_lt (by omega)]
  rw [(by omega : p * 1073741824 = 2 ^ 30 * p)]
  rw [lor_high md.messageNumber p 30 (by omega)]
  omega

theorem mkWrite_eq (c : Nat) (r pm : Bool) :
    Packet.mkWrite (c : Int) r pm =
      Packet.writeHeader { freshMessageData (Packet.totalHeaderSize pm + c) with
        isReliable := r, isPartOfMessage := pm } false := by
  unfold Packet.mkWrite Packet.basePacketAlloc
  have e1 : ¬ ((c : Int) = -1) := by omega
  have e2 : ¬ ((Packet.totalHeaderSize pm : Int) + c = -1) := by omega
  have e3 : ¬ ((Packet.totalHeaderSize pm : Int) + c < 0) := by omega
  have e4 : ((Packet.totalHeaderSize pm : Int) + c).toNat = Packet.totalHeaderSize pm + c := by
    omega
  simp only [e1, e2, e3, if_neg, if_false, e4]

theorem bindOk {α β : Type} (a : α) (f : α → Except JsErr β) :
    (Except.ok a : Except JsErr α).bind f = f a := rfl

theorem getU32_0_set_4 (b : Buffer) (w : Nat) :
    (b.setUint32LE 4 w).getUint32LE 0 = b.getUint32LE 0 :=
  Buffer.getUint32LE_setUint32LE_disjoint b 0 4 w (Or.inl (by norm_num))

theorem getU32_0_set_8 (b : Buffer) (w : Nat) :
    (b.setUint32LE 8 w).getUint32LE 0 = b.getUint32LE 0 :=
  Buffer.getUint32LE_setUint32LE_disjoint b 0 8 w (Or.inl (by norm_num))

theorem getU32_4_set_8 (b : Buffer) (w : Nat) :
    (b.setUint32LE 8 w).getUint32LE 4 = b.getUint32LE 4 :=
  Buffer.getUint32LE_setUint32LE_disjoint b 4 8 w (Or.inl (by norm_num))

theorem getU32_4_set_0 (b : Buffer) (w : Nat) :
    (b.setUint32LE 0 w).getUint32LE 4 = b.getUint32LE 4 :=
  Buffer.getUint32LE_setUint32LE_disjoint b 4 0 w (Or.inr (by norm_num))

theorem getU32_8_set_0 (b : Buffer) (w : Nat) :
    (b.setUint32LE 0 w).getUint32LE 8 = b.getUint32LE 8 :=
  Buffer.getUint32LE_setUint32LE_disjoint b 8 0 w (Or.inr (by norm_num))

theorem getU32_8_set_4 (b : Buffer) (w : Nat) :
    (b.setUint32LE 4 w).getUint32LE 8 = b.getUint32LE 8 :=
  Buffer.getUint32LE_setUint32LE_disjoint b 8 4 w (Or.inr (by norm_num))

theorem jsAnd_zero (x : Nat) : jsAnd 0 x = 0 := by
  simp [jsAnd, toUint32]

theorem word0_parse (seq kb km ko : Nat) (hseq : seq < 134217728) (hkb : kb ≤ 1)
    (hkm : km ≤ 1) (hko : ko ≤ 3) :
    jsAnd (1073741824 * kb + 536870912 * km + 134217728 * ko + seq) UDT.CONTROL_BIT_MASK = 0 ∧
    jsAnd (1073741824 * kb + 536870912 * km + 134217728 * ko + seq) UDT.RELIABILITY_BIT_MASK
      = 1073741824 * kb ∧
    jsAnd (1073741824 * kb + 536870912 * km + 134217728 * ko + seq) UDT.MESSAGE_BIT_MASK
      = 536870912 * km ∧
    jsAnd (1073741824 * kb + 536870912 * km + 134217728 * ko + seq) UDT.OBFUSCATION_LEVEL_BIT_MASK
      = 134217728 * ko ∧
    jsAnd (1073741824 * kb + 536870912 * km + 134217728 * ko + seq) UDT.SEQUENCE_NUMBER_BIT_MASK
      = seq := by
  have hw : 1073741824 * kb + 536870912 * km + 134217728 * ko + seq < 4294967296 := by omega
  refine ⟨?_, ?_, ?_, ?_, ?_⟩
  · rw [UDT.CONTROL_BIT_MASK, jsAnd_eq_land hw (by norm_num), and_control_mask]
    omega
  · rw [UDT.RELIABILITY_BIT_MASK, jsAnd_eq_land hw (by norm_num), and_reliability_mask]
    omega
  · rw [UDT.MESSAGE_BIT_MASK, jsAnd_eq_land hw (by norm_num), and_message_mask]
    omega
  · rw [UDT.OBFUSCATION_LEVEL_BIT_MASK, jsAnd_eq_land hw (by norm_num), and_obfuscation_mask]
    omega
  · rw [UDT.SEQUENCE_NUMBER_BIT_MASK, jsAnd_eq_land hw (by norm_num), and_seq_mask]
    omega

theorem word1_parse (mn p : Nat) (hmn : mn < 1073741824) (hp : p < 4) :
    jsAnd (1073741824 * p + mn) UDT.MESSAGE_NUMBER_MASK = mn ∧
    jsShrS (1073741824 * p + mn) UDT.PACKET_POSITION_OFFSET
      = (if p < 2 then (p : Int) else (p : Int) - 4) := by
  have hw : 1073741824 * p + mn < 4294967296 := by omega
  constructor
  · rw [UDT.MESSAGE_NUMBER_MASK, jsAnd_eq_land hw (by norm_num), and_msgnum_mask]
    omega
  · rw [UDT.PACKET_POSITION_OFFSET, jsShrS, toUint32_of_lt hw]
    have e1 : (2 : Nat) ^ (30 % 32) = 1073741824 := by norm_num
    have e2 : (2 : Int) ^ (32 - 30 % 32) = 4 := by norm_num
    rw [e1, e2]
    have hd : (1073741824 * p + mn) / 1073741824 = p := by omega
    rw [hd]
    by_cases h2 : p < 2
    · rw [if_pos (by omega), if_pos (by omega)]
      omega
    · rw [if_neg (by omega), if_neg (by omega)]

theorem fromReceivedPacket_msg (data : Buffer) (size : Nat) (hsz : 12 ≤ data.size)
    (hctl : jsAnd (data.getUint32LE 0) UDT.CONTROL_BIT_MASK = 0)
    (hmsg : 0 < jsAnd (data.getUint32LE 0) UDT.MESSAGE_BIT_MASK) :
    Packet.fromReceivedPacket data size = .ok (
      { data := data, packetSize := size, dataPosition := 12,
        isReliable := decide (0 < jsAnd (data.getUint32LE 0) UDT.RELIABILITY_BIT_MASK),
        isPartOfMessage := true,
        obfuscationLevel := jsShrS (jsAnd (data.getUint32LE 0) UDT.OBFUSCATION_LEVEL_BIT_MASK)
          UDT.OBFUSCATION_LEVEL_OFFSET,
        sequenceNumber := jsAnd (data.getUint32LE 0) UDT.SEQUENCE_NUMBER_BIT_MASK,
        messageNumber := jsAnd (data.getUint32LE 4) UDT.MESSAGE_NUMBER_MASK,
        packetPosition := jsShrS (data.getUint32LE 4) UDT.PACKET_POSITION_OFFSET,
        messagePartNumber := data.getUint32LE 8 },
      decide (jsShrS (jsAnd (data.getUint32LE 0) UDT.OBFUSCATION_LEVEL_BIT_MASK)
        UDT.OBFUSCATION_LEVEL_OFFSET ≠ Packet.ObfuscationLevel.NoObfuscation)) := by
  simp only [Packet.fromReceivedPacket]
  rw [readHeader_ok_msg _ rfl hsz hctl hmsg]

theorem fromReceivedPacket_notMsg (data : Buffer) (size : Nat) (hsz : 4 ≤ data.size)
    (hctl : jsAnd (data.getUint32LE 0) UDT.CONTROL_BIT_MASK = 0)
    (hmsg : jsAnd (data.getUint32LE 0) UDT.MESSAGE_BIT_MASK = 0) :
    Packet.fromReceivedPacket data size = .ok (
      { data := data, packetSize := size, dataPosition := 4,
        isReliable := decide (0 < jsAnd (data.getUint32LE 0) UDT.RELIABILITY_BIT_MASK),
        isPartOfMessage := false,
        obfuscationLevel := jsShrS (jsAnd (data.getUint32LE 0) UDT.OBFUSCATION_LEVEL_BIT_MASK)
          UDT.OBFUSCATION_LEVEL_OFFSET,
        sequenceNumber := jsAnd (data.getUint32LE 0) UDT.SEQUENCE_NUMBER_BIT_MASK,
        messageNumber := 0, packetPosition := 0, messagePartNumber := 0 },
      decide (jsShrS (jsAnd (data.getUint32LE 0) UDT.OBFUSCATION_LEVEL_BIT_MASK)
        UDT.OBFUSCATION_LEVEL_OFFSET ≠ Packet.ObfuscationLevel.NoObfuscation)) := by
  simp only [Packet.fromReceivedPacket]
  rw [readHeader_ok_notMsg _ rfl hsz hctl hmsg]

theorem writeParse_msg (md : MessageData) (p : Nat)
    (hobf : md.obfuscationLevel = 0)
    (hpm : md.isPartOfMessage = true)
    (hseq : md.sequenceNumber < 134217728)
    (hmn : md.messageNumber < 134217728)
    (hpos : md.packetPosition = (p : Int))
    (hp : p < 4)
    (hpart : md.messagePartNumber < 4294967296)
    (hsz : 12 ≤ md.data.size) :
    ∃ parsed : MessageData,
      (Packet.writeHeader md true).bind
          (fun m => Packet.fromReceivedPacket m.data m.packetSize) = .ok (parsed, false) ∧
      parsed.isReliable = md.isReliable ∧
      parsed.isPartOfMessage = true ∧
      parsed.sequenceNumber = md.sequenceNumber ∧
      parsed.messageNumber = md.messageNumber ∧
      parsed.messagePartNumber = md.messagePartNumber ∧
      parsed.packetPosition = (if p < 2 then (p : Int) else (p : Int) - 4) := by
  have hW := writeHeader_ok md true (jsAnd_bitfield_zero hseq) (fun h => nomatch h)
    (by rw [hpm]; simpa [Packet.totalHeaderSize] using hsz)
  rw [hpm] at hW
  simp only [if_true] at hW
  rw [hW, bindOk]
  have hW0 := seqNumBitFieldOf_eval md hobf hseq
  rw [hpm] at hW0
  have hW1 := messageNumberAndBitFieldOf_eval md p hpos hp hmn
  have hkb : ∃ kb, kb ≤ 1 ∧ (decide (0 < 1073741824 * kb) = md.isReliable) ∧
      Packet.seqNumBitFieldOf md
        = 1073741824 * kb + 536870912 * 1 + 134217728 * 0 + md.sequenceNumber := by
    cases hr : md.isReliable
    · refine ⟨0, by omega, by decide, ?_⟩
      rw [hW0, hr]
      norm_num
    · refine ⟨1, by omega, by decide, ?_⟩
      rw [hW0, hr]
      norm_num
  obtain ⟨kb, hkb1, hkbr, hw0⟩ := hkb
  obtain ⟨f1, f2, f3, f4, f5⟩ :=
    word0_parse md.sequenceNumber kb 1 0 hseq hkb1 (le_refl 1) (by omega)
  have hsz' : 12 ≤ (((md.data.setUint32LE 0 (Packet.seqNumBitFieldOf md)).setUint32LE 4
      (Packet.messageNumberAndBitFieldOf md)).setUint32LE 8 md.messagePartNumber).size := by
    simpa [Buffer.size_setUint32LE] using hsz
  have hg0 : (((md.data.setUint32LE 0 (Packet.seqNumBitFieldOf md)).setUint32LE 4
      (Packet.messageNumberAndBitFieldOf md)).setUint32LE 8 md.messagePartNumber).getUint32LE 0
      = 1073741824 * kb + 536870912 * 1 + 134217728 * 0 + md.sequenceNumber := by
    rw [getU32_0_set_8, getU32_0_set_4, Buffer.getUint32LE_setUint32LE_self, hw0]
    omega
  have hg4 : (((md.data.setUint32LE 0 (Packet.seqNumBitFieldOf md)).setUint32LE 4
      (Packet.messageNumberAndBitFieldOf md)).setUint32LE 8 md.messagePartNumber).getUint32LE 4
      = 1073741824 * p + md.messageNumber := by
    rw [getU32_4_set_8, Buffer.getUint32LE_setUint32LE_self, hW1]
    omega
  have hg8 : (((md.data.setUint32LE 0 (Packet.seqNumBitFieldOf md)).setUint32LE 4
      (Packet.messageNumberAndBitFieldOf md)).setUint32LE 8 md.messagePartNumber).getUint32LE 8
      = md.messagePartNumber := by
    rw [Buffer.getUint32LE_setUint32LE_self]
    omega
  obtain ⟨m1, m2⟩ := word1_parse md.messageNumber p (by omega) hp
  rw [fromReceivedPacket_msg _ _ hsz' (by rw [hg0]; exact f1) (by rw [hg0, f3]; omega)]
  rw [hg0, hg4, hg8, f2, f4, f5, m1, m2, hkbr]
  rw [(by decide : decide (jsShrS (134217728 * 0) UDT.OBFUSCATION_LEVEL_OFFSET
        ≠ Packet.ObfuscationLevel.NoObfuscation) = false)]
  exact ⟨_, rfl, rfl, rfl, rfl, rfl, rfl, rfl⟩

theorem writeParse_notMsg (md : MessageData)
    (hobf : md.obfuscationLevel = 0)
    (hpm : md.isPartOfMessage = false)
    (hseq : md.sequenceNumber < 134217728)
    (hsz : 4 ≤ md.data.size) :
    ∃ parsed : MessageData,
      (Packet.writeHeader md true).bind
          (fun m => Packet.fromReceivedPacket m.data m.packetSize) = .ok (parsed, false) ∧
      parsed.isReliable = md.isReliable ∧
      parsed.isPartOfMessage = false ∧
      parsed.sequenceNumber = md.sequenceNumber := by
  have hW := writeHeader_ok md true (jsAnd_bitfield_zero hseq) (fun h => nomatch h)
    (by rw [hpm]; simpa [Packet.totalHeaderSize] using hsz)
  rw [hpm] at hW
  simp only [Bool.false_eq_true, if_false] at hW
  rw [hW, bindOk]
  have hW0 := seqNumBitFieldOf_eval md hobf hseq
  rw [hpm] at hW0
  have hkb : ∃ kb, kb ≤ 1 ∧ (decide (0 < 1073741824 * kb) = md.isReliable) ∧
      Packet.seqNumBitFieldOf md
        = 1073741824 * kb + 536870912 * 0 + 134217728 * 0 + md.sequenceNumber := by
    cases hr : md.isReliable
    · refine ⟨0, by omega, by decide, ?_⟩
      rw [hW0, hr]
      norm_num
    · refine ⟨1, by omega, by decide, ?_⟩
      rw [hW0, hr]
      norm_num
  obtain ⟨kb, hkb1, hkbr, hw0⟩ := hkb
  obtain ⟨f1, f2, f3, f4, f5⟩ :=
    word0_parse md.sequenceNumber kb 0 0 hseq hkb1 (by omega) (by omega)
  have hsz' : 4 ≤ (md.data.setUint32LE 0 (Packet.seqNumBitFieldOf md)).size := by
    simpa [Buffer.size_setUint32LE] using hsz
  have hg0 : (md.data.setUint32LE 0 (Packet.seqNumBitFieldOf md)).getUint32LE 0
      = 1073741824 * kb + 536870912 * 0 + 134217728 * 0 + md.sequenceNumber := by
    rw [Buffer.getUint32LE_setUint32LE_self, hw0]
    omega
  rw [fromReceivedPacket_notMsg _ _ hsz' (by rw [hg0]; exact f1) (by rw [hg0, f3])]
  rw [hg0, f2, f4, f5, hkbr]
  rw [(by decide : decide (jsShrS (134217728 * 0) UDT.OBFUSCATION_LEVEL_OFFSET
        ≠ Packet.ObfuscationLevel.NoObfuscation) = false)]
  exact ⟨_, rfl, rfl, rfl, rfl⟩


theorem zeros_byteAt_sets_msg (n w0 w1 w2 i : Nat) (h : 12 ≤ i) :
    ((((Buffer.zeros n).setUint32LE 0 w0).setUint32LE 4 w1).setUint32LE 8 w2).byteAt i = 0 := by
  rw [Buffer.byteAt_setUint32LE_of_ge _ _ _ _ (by omega),
      Buffer.byteAt_setUint32LE_of_ge _ _ _ _ (by omega),
      Buffer.byteAt_setUint32LE_of_ge _ _ _ _ (by omega)]
  rfl

theorem zeros_byteAt_sets_notMsg (n w0 i : Nat) (h : 4 ≤ i) :
    ((Buffer.zeros n).setUint32LE 0 w0).byteAt i = 0 := by
  rw [Buffer.byteAt_setUint32LE_of_ge _ _ _ _ (by omega)]
  rfl

/-- Claim C2: a packet freshly created for writing with `new Packet(capacity, reliable,
partOfMessage)` has total size `totalHeaderSize(partOfMessage) + capacity` (4-byte
header when not part of a message, 12-byte when part of one), every byte after the
header is zero, and capacity `-1` allocates the transport's maximum payload size. -/
theorem claim_C2 (c : Nat) (reliable partOfMessage : Bool) :
    (∃ md, Packet.mkWrite (c : Int) reliable partOfMessage = .ok md ∧
      md.packetSize = Packet.totalHeaderSize partOfMessage + c ∧
      md.data.size = Packet.totalHeaderSize partOfMessage + c ∧
      ∀ i, Packet.totalHeaderSize partOfMessage ≤ i → md.data.byteAt i = 0) ∧
    (∃ md, Packet.mkWrite (-1) reliable partOfMessage = .ok md ∧
      md.packetSize = UDT.MAX_PACKET_SIZE ∧
      md.data.size = UDT.MAX_PACKET_SIZE ∧
      ∀ i, Packet.totalHeaderSize partOfMessage ≤ i → md.data.byteAt i = 0) := by
  constructor
  · rw [mkWrite_eq]
    rw [writeHeader_ok _ false (by simp [freshMessageData, jsAnd_zero]) (fun _ => rfl)
      (by simp [freshMessageData, Buffer.zeros])]
    refine ⟨_, rfl, rfl, ?_, ?_⟩
    · cases hpm : partOfMessage <;>
        simp [freshMessageData, Buffer.zeros, Buffer.size_setUint32LE]
    · intro i hi
      cases hpm : partOfMessage <;> rw [hpm] at hi <;>
        simp only [Packet.totalHeaderSize, if_true, if_false] at hi <;>
        simp only [hpm, freshMessageData, Bool.false_eq_true, if_true, if_false]
      · exact zeros_byteAt_sets_notMsg _ _ _ (by omega)
      · exact zeros_byteAt_sets_msg _ _ _ _ _ (by omega)
  · have halloc : Packet.mkWrite (-1) reliable partOfMessage =
        Packet.writeHeader { freshMessageData UDT.MAX_PACKET_SIZE with
          isReliable := reliable, isPartOfMessage := partOfMessage } false := by
      simp [Packet.mkWrite, Packet.basePacketAlloc]
    rw [halloc]
    rw [writeHeader_ok _ false (by simp [freshMessageData, jsAnd_zero]) (fun _ => rfl)
      (by cases partOfMessage <;> simp [freshMessageData, Buffer.zeros,
        Packet.totalHeaderSize, UDT.MAX_PACKET_SIZE])]
    refine ⟨_, rfl, rfl, ?_, ?_⟩
    · cases hpm : partOfMessage <;>
        simp [freshMessageData, Buffer.zeros, Buffer.size_setUint32LE]
    · intro i hi
      cases hpm : partOfMessage <;> rw [hpm] at hi <;>
        simp only [Packet.totalHeaderSize, if_true, if_false] at hi <;>
        simp only [hpm, freshMessageData, Bool.false_eq_true, if_true, if_false]
      · exact zeros_byteAt_sets_notMsg _ _ _ (by omega)
      · exact zeros_byteAt_sets_msg _ _ _ _ _ (by omega)

/-- Claim C1, counterexample: the claim as stated is false on the code.  First, the
29-bit sequence number 2^28 = 268435456 cannot even be written: `writeHeader`'s
assert rejects any sequence number with bits 27-31 set (the field is 27 bits wide),
so the write fails and nothing can be parsed back.  Second, a packet written with
position FIRST = 2 parses back with packet position -2, not 2: `readHeader` uses
JavaScript's signed `>>` on the message word, which sign-extends the two position
bits when bit 31 is set. -/
theorem claim_C1_counterexample :
    268435456 < 536870912 ∧
    ((Packet.mkWrite (8 : Int) false true).bind (fun md =>
      Packet.writeSequenceNumber md 268435456)).toOption.isNone = true ∧
    (Packet.PacketPosition.FIRST : Int) = 2 ∧
    ((((Packet.mkWrite (8 : Int) false true).bind (fun md =>
        (Packet.writeSequenceNumber md 3).bind (fun md2 =>
          Packet.writeMessageNumber md2 5 (Packet.PacketPosition.FIRST : Int) 7))).bind
        (fun m => Packet.fromReceivedPacket m.data m.packetSize)).toOption.map
      (fun x => x.1.packetPosition) = some (-2)) ∧
    ((-2 : Int) ≠ 2) := by
  refine ⟨by norm_num, ?_, by decide, ?_, by decide⟩
  · decide
  · decide

theorem readHeader_no_assert (md : MessageData) (hdp : md.dataPosition = 0)
    (h4 : 4 ≤ md.data.size)
    (hc : jsAnd (md.data.getUint32LE 0) UDT.CONTROL_BIT_MASK = 0) (fn msg : String) :
    Packet.readHeader md ≠ .error (.assertFail fn msg) := by
  intro hcontra
  by_cases hm : 0 < jsAnd (md.data.getUint32LE 0) UDT.MESSAGE_BIT_MASK
  · by_cases h8 : 8 ≤ md.data.size
    · by_cases h12 : 12 ≤ md.data.size
      · simp [Packet.readHeader, dvGetUint32, hdp, h4, hc, hm, h8, h12] at hcontra
      · simp [Packet.readHeader, dvGetUint32, hdp, h4, hc, hm, h8, h12] at hcontra
    · simp [Packet.readHeader, dvGetUint32, hdp, h4, hc, hm, h8] at hcontra
  · simp [Packet.readHeader, dvGetUint32, hdp, h4, hc, hm] at hcontra

/-- Claim C3: constructing a Packet from received bytes fails its assertion if and
only if the control bit (bit 31) of the leading little-endian 32-bit word is set;
with the control bit clear no assertion can fail, and the bytes decode as a data
packet (given the buffer holds the full header its message bit declares). -/
theorem claim_C3 (data : Buffer) (size : Nat) (h4 : 4 ≤ data.size) :
    (jsAnd (data.getUint32LE 0) UDT.CONTROL_BIT_MASK ≠ 0 →
      Packet.fromReceivedPacket data size
        = .error (.assertFail "Packet.readHeader()" "This should be a data packet!")) ∧
    (jsAnd (data.getUint32LE 0) UDT.CONTROL_BIT_MASK = 0 →
      ∀ fn msg, Packet.fromReceivedPacket data size ≠ .error (.assertFail fn msg)) ∧
    (jsAnd (data.getUint32LE 0) UDT.CONTROL_BIT_MASK = 0 →
      (0 < jsAnd (data.getUint32LE 0) UDT.MESSAGE_BIT_MASK → 12 ≤ data.size) →
      ∃ md warned, Packet.fromReceivedPacket data size = .ok (md, warned)) := by
  refine ⟨?_, ?_, ?_⟩
  · intro hctl
    simp [Packet.fromReceivedPacket, Packet.readHeader, dvGetUint32, h4, hctl]
  · intro hctl fn msg hcontra
    have hno := readHeader_no_assert
      { data := data, packetSize := size, dataPosition := 0,
        isReliable := false, isPartOfMessage := false, obfuscationLevel := 0,
        sequenceNumber := 0, messageNumber := 0, packetPosition := 0,
        messagePartNumber := 0 } rfl h4 hctl fn msg
    simp only [Packet.fromReceivedPacket] at hcontra
    revert hcontra
    split
    · rename_i e heq
      intro hcontra
      have he : e = JsErr.assertFail fn msg := by simpa using hcontra
      rw [he] at heq
      exact hno heq
    · intro hcontra
      exact Except.noConfusion hcontra
  · intro hctl hsz12
    by_cases hm : 0 < jsAnd (data.getUint32LE 0) UDT.MESSAGE_BIT_MASK
    · exact ⟨_, _, fromReceivedPacket_msg data size (hsz12 hm) hctl hm⟩
    · exact ⟨_, _, fromReceivedPacket_notMsg data size h4 hctl (by omega)⟩

/-- Claim C5: on an already-written packet, `writeSequenceNumber` (with a valid new
sequence number) and `writeMessageNumber` overwrite only the header bytes at the
start of the buffer: the read/write cursor `dataPosition` is exactly its value
before the call, the buffer size is unchanged, and every payload byte beyond the
(possibly grown, for `writeMessageNumber`) header is unchanged. -/
theorem claim_C5 (md : MessageData) (seq mn part : Nat) (pos : Int)
    (hnew : jsAnd seq UDT.BIT_FIELD_MASK = 0)
    (hold : jsAnd md.sequenceNumber UDT.BIT_FIELD_MASK = 0) :
    (Packet.totalHeaderSize md.isPartOfMessage ≤ md.data.size →
      ∃ md', Packet.writeSequenceNumber md seq = .ok md' ∧
        md'.dataPosition = md.dataPosition ∧
        md'.data.size = md.data.size ∧
        ∀ i, Packet.totalHeaderSize md.isPartOfMessage ≤ i →
          md'.data.byteAt i = md.data.byteAt i) ∧
    (12 ≤ md.data.size →
      ∃ md', Packet.writeMessageNumber md mn pos part = .ok md' ∧
        md'.dataPosition = md.dataPosition ∧
        md'.data.size = md.data.size ∧
        ∀ i, 12 ≤ i → md'.data.byteAt i = md.data.byteAt i) := by
  constructor
  · intro hsz
    simp only [Packet.writeSequenceNumber]
    rw [writeHeader_ok { md with sequenceNumber := seq } true hnew (fun h => nomatch h) hsz]
    refine ⟨_, rfl, rfl, ?_, ?_⟩
    · cases hpm : md.isPartOfMessage <;> simp [hpm, Buffer.size_setUint32LE]
    · intro i hi
      cases hpm : md.isPartOfMessage <;> rw [hpm] at hi <;>
        simp only [Packet.totalHeaderSize, if_true, if_false] at hi <;>
        simp only [hpm, Bool.false_eq_true, if_true, if_false]
      · rw [Buffer.byteAt_setUint32LE_of_ge _ _ _ _ (by omega)]
      · rw [Buffer.byteAt_setUint32LE_of_ge _ _ _ _ (by omega),
            Buffer.byteAt_setUint32LE_of_ge _ _ _ _ (by omega),
            Buffer.byteAt_setUint32LE_of_ge _ _ _ _ (by omega)]
  · intro hsz
    simp only [Packet.writeMessageNumber]
    have hW := writeHeader_ok
      { md with isPartOfMessage := true, messageNumber := mn, packetPosition := pos,
                messagePartNumber := part }
      true hold (fun h => nomatch h) (by simpa [Packet.totalHeaderSize] using hsz)
    rw [hW]
    refine ⟨_, rfl, rfl, ?_, ?_⟩
    · simp [Buffer.size_setUint32LE]
    · intro i hi
      simp only [if_true]
      rw [Buffer.byteAt_setUint32LE_of_ge _ _ _ _ (by omega),
          Buffer.byteAt_setUint32LE_of_ge _ _ _ _ (by omega),
          Buffer.byteAt_setUint32LE_of_ge _ _ _ _ (by omega)]

/-- Claim C6: a received packet whose 2-bit obfuscation-level field is nonzero is
constructed without throwing - the result is `.ok` with the warning flag set (the
"Undo obfuscation : Not implemented!" path) - and the buffer bytes are exactly the
received ones: no de-obfuscation is applied. -/
theorem claim_C6 (data : Buffer) (size : Nat) (h4 : 4 ≤ data.size)
    (hctl : jsAnd (data.getUint32LE 0) UDT.CONTROL_BIT_MASK = 0)
    (h12 : 0 < jsAnd (data.getUint32LE 0) UDT.MESSAGE_BIT_MASK → 12 ≤ data.size)
    (hobf : jsShrS (jsAnd (data.getUint32LE 0) UDT.OBFUSCATION_LEVEL_BIT_MASK)
      UDT.OBFUSCATION_LEVEL_OFFSET ≠ 0) :
    ∃ md, Packet.fromReceivedPacket data size = .ok (md, true) ∧
      md.data = data ∧ md.data.size = data.size ∧
      ∀ i, md.data.byteAt i = data.byteAt i := by
  by_cases hm : 0 < jsAnd (data.getUint32LE 0) UDT.MESSAGE_BIT_MASK
  · rw [fromReceivedPacket_msg data size (h12 hm) hctl hm]
    rw [(by simpa [Packet.ObfuscationLevel.NoObfuscation] using decide_eq_true hobf :
      decide (jsShrS (jsAnd (data.getUint32LE 0) UDT.OBFUSCATION_LEVEL_BIT_MASK)
        UDT.OBFUSCATION_LEVEL_OFFSET ≠ Packet.ObfuscationLevel.NoObfuscation) = true)]
    exact ⟨_, rfl, rfl, rfl, fun i => rfl⟩
  · rw [fromReceivedPacket_notMsg data size h4 hctl (by omega)]
    rw [(by simpa [Packet.ObfuscationLevel.NoObfuscation] using decide_eq_true hobf :
      decide (jsShrS (jsAnd (data.getUint32LE 0) UDT.OBFUSCATION_LEVEL_BIT_MASK)
        UDT.OBFUSCATION_LEVEL_OFFSET ≠ Packet.ObfuscationLevel.NoObfuscation) = true)]
    exact ⟨_, rfl, rfl, rfl, fun i => rfl⟩

/-- Claim C1 as amended: for every packet created for writing with a 27-bit sequence
number (the field is 27 bits; larger values fail `writeHeader`'s assert), a
reliability flag, a part-of-message flag and, when part of a message, a 27-bit
message number, 2-bit position and 32-bit part number, parsing the serialized
header bytes reproduces the reliability flag, part-of-message flag, sequence
number, message number and part number; the packet position is reproduced for
ONLY = 0 and LAST = 1, while FIRST = 2 and MIDDLE = 3 read back sign-extended as
-2 and -1 because `readHeader` uses JavaScript's signed `>>`. -/
theorem claim_C1_roundtrip (c seq mn part p : Nat) (r : Bool)
    (hseq : seq < 134217728) (hmn : mn < 134217728) (hp : p < 4) (hpart : part < 4294967296) :
    (∃ parsed : MessageData,
      (Packet.mkWrite (c : Int) r false).bind (fun md =>
        (Packet.writeSequenceNumber md seq).bind (fun m =>
          Packet.fromReceivedPacket m.data m.packetSize)) = .ok (parsed, false) ∧
      parsed.isReliable = r ∧ parsed.isPartOfMessage = false ∧ parsed.sequenceNumber = seq) ∧
    (∃ parsed : MessageData,
      (Packet.mkWrite (c : Int) r true).bind (fun md =>
        (Packet.writeSequenceNumber md seq).bind (fun md2 =>
          (Packet.writeMessageNumber md2 mn (p : Int) part).bind (fun m =>
            Packet.fromReceivedPacket m.data m.packetSize))) = .ok (parsed, false) ∧
      parsed.isReliable = r ∧ parsed.isPartOfMessage = true ∧ parsed.sequenceNumber = seq ∧
      parsed.messageNumber = mn ∧ parsed.messagePartNumber = part ∧
      parsed.packetPosition = (if p < 2 then (p : Int) else (p : Int) - 4)) := by
  constructor
  · rw [mkWrite_eq]
    rw [writeHeader_ok _ false (by simp [freshMessageData, jsAnd_zero]) (fun _ => rfl)
      (by simp [freshMessageData, Buffer.zeros])]
    rw [bindOk]
    simp only [Packet.writeSequenceNumber]
    exact writeParse_notMsg _ rfl rfl hseq
      (by simp [freshMessageData, Buffer.zeros, Buffer.size_setUint32LE, Packet.totalHeaderSize])
  · rw [mkWrite_eq]
    rw [writeHeader_ok _ false (by simp [freshMessageData, jsAnd_zero]) (fun _ => rfl)
      (by simp [freshMessageData, Buffer.zeros])]
    rw [bindOk]
    simp only [Packet.writeSequenceNumber]
    rw [writeHeader_ok _ true (jsAnd_bitfield_zero hseq) (fun h => nomatch h)
      (by simp [freshMessageData, Buffer.zeros, Buffer.size_setUint32LE, Packet.totalHeaderSize])]
    rw [bindOk]
    simp only [Packet.writeMessageNumber]
    exact writeParse_msg _ p rfl rfl hseq hmn rfl hp hpart
      (by simp [freshMessageData, Buffer.zeros, Buffer.size_setUint32LE, Packet.totalHeaderSize])

theorem testVector_messagePacket :
    (Packet.fromReceivedPacket
        (Buffer.ofList [0xda, 0x28, 0x0a, 0x66, 0x09, 0, 0, 0x40, 2, 0, 0, 0]) 12).toOption.map
      (fun x => (x.1.isReliable, x.1.isPartOfMessage, x.1.messageNumber, x.1.packetPosition,
        x.1.messagePartNumber))
      = some (true, true, 9, (Packet.PacketPosition.LAST : Int), 2) := by decide

theorem testVector_domainServerList :
    (Packet.fromReceivedPacket (Buffer.ofList [3, 0, 0, 0, 2, 0x18]) 6).toOption.map
      (fun x => (x.1.isReliable, x.1.isPartOfMessage, x.1.sequenceNumber,
        x.1.packetPosition, x.1.messagePartNumber, x.2))
      = some (false, false, 3, 0, 0, false) := by decide

theorem claim_C1_roundtrip_witness :
    ∃ parsed : MessageData,
      (Packet.mkWrite (8 : Int) true true).bind (fun md =>
        (Packet.writeSequenceNumber md 3).bind (fun md2 =>
          (Packet.writeMessageNumber md2 5 (1 : Int) 7).bind (fun m =>
            Packet.fromReceivedPacket m.data m.packetSize))) = .ok (parsed, false) ∧
      parsed.isReliable = true ∧ parsed.isPartOfMessage = true ∧ parsed.sequenceNumber = 3 ∧
      parsed.messageNumber = 5 ∧ parsed.messagePartNumber = 7 ∧ parsed.packetPosition = 1 := by
  have h := (claim_C1_roundtrip 8 3 5 7 1 true (by norm_num) (by norm_num) (by norm_num)
    (by norm_num)).2
  obtain ⟨parsed, h1, h2, h3, h4, h5, h6, h7⟩ := h
  exact ⟨parsed, h1, h2, h3, h4, h5, h6, by rw [h7]; norm_num⟩

theorem claim_C2_witness :
    (∃ md, Packet.mkWrite ((8 : Nat) : Int) true true = .ok md ∧
      md.packetSize = Packet.totalHeaderSize true + 8 ∧
      md.data.size = Packet.totalHeaderSize true + 8 ∧
      ∀ i, Packet.totalHeaderSize true ≤ i → md.data.byteAt i = 0) ∧
    (∃ md, Packet.mkWrite (-1) true true = .ok md ∧
      md.packetSize = UDT.MAX_PACKET_SIZE ∧
      md.data.size = UDT.MAX_PACKET_SIZE ∧
      ∀ i, Packet.totalHeaderSize true ≤ i → md.data.byteAt i = 0) :=
  claim_C2 8 true true

theorem claim_C3_witness :
    (Packet.fromReceivedPacket (Buffer.ofList [0, 0, 0, 0x80]) 4
      = .error (.assertFail "Packet.readHeader()" "This should be a data packet!")) ∧
    (∃ md warned, Packet.fromReceivedPacket (Buffer.ofList [3, 0, 0, 0]) 4 = .ok (md, warned)) :=
  ⟨(claim_C3 (Buffer.ofList [0, 0, 0, 0x80]) 4 (by decide)).1 (by decide),
   (claim_C3 (Buffer.ofList [3, 0, 0, 0]) 4 (by decide)).2.2 (by decide) (by decide)⟩

theorem claim_C5_witness :
    (∃ md', Packet.writeSequenceNumber
        { freshMessageData 16 with isPartOfMessage := true, dataPosition := 14 } 5 = .ok md' ∧
      md'.dataPosition = 14 ∧ md'.data.size = 16 ∧
      ∀ i, 12 ≤ i → md'.data.byteAt i
        = ({ freshMessageData 16 with isPartOfMessage := true, dataPosition := 14 } : MessageData).data.byteAt i) ∧
    (∃ md', Packet.writeMessageNumber
        { freshMessageData 16 with isPartOfMessage := true, dataPosition := 14 } 6 1 2 = .ok md' ∧
      md'.dataPosition = 14 ∧ md'.data.size = 16 ∧
      ∀ i, 12 ≤ i → md'.data.byteAt i
        = ({ freshMessageData 16 with isPartOfMessage := true, dataPosition := 14 } : MessageData).data.byteAt i) := by
  have h := claim_C5 { freshMessageData 16 with isPartOfMessage := true, dataPosition := 14 }
    5 6 2 1 (by decide) (by decide)
  exact ⟨h.1 (by decide), h.2 (by decide)⟩

theorem claim_C6_witness :
    ∃ md, Packet.fromReceivedPacket (Buffer.ofList [3, 0, 0, 0x08]) 4 = .ok (md, true) ∧
      md.data = Buffer.ofList [3, 0, 0, 0x08] ∧
      md.data.size = (Buffer.ofList [3, 0, 0, 0x08]).size ∧
      ∀ i, md.data.byteAt i = (Buffer.ofList [3, 0, 0, 0x08]).byteAt i :=
  claim_C6 (Buffer.ofList [3, 0, 0, 0x08]) 4 (by decide) (by decide) (by decide) (by decide)

/-! ### Packet cloning and buffer ownership

`Packet.createCopy` delegates buffer duplication to the `BasePacket` /
`MessageData` copy constructor, which is not among the provided sources.
Modelled from the spec: "cloning deep-copies the buffer" and "the clone owns an
independent buffer from creation" (and `BasePacket.unit.test.js`, which checks
that the copy's `MessageData` is a distinct object).  To make buffer ownership
observable, buffers live in a store indexed by reference; a packet handle holds
its buffer's reference.  What `Packet.ts` itself contributes (lines 177-183) is
the copy's cursor: `dataPosition` is reset to `totalHeaderSize(isPartOfMessage)`. -/

structure PacketStore where
  bufs : List Buffer

structure PacketHandle where
  bufIndex : Nat
  isPartOfMessage : Bool
  dataPosition : Nat

/-- The buffer a reference designates. -/
def PacketStore.bufAt (st : PacketStore) (i : Nat) : Buffer := st.bufs.getD i (Buffer.zeros 0)

/-- Write one byte into the buffer designated by reference `r`. -/
def PacketStore.writeByte (st : PacketStore) (r pos v : Nat) : PacketStore :=
  ⟨st.bufs.set r ((st.bufAt r).setByte pos v)⟩

/-- `Packet.createCopy(other)` / the Packet-from-Packet constructor (Packet.ts lines
120-123 and 177-183).  Modelled from the spec: the copy allocates a fresh buffer
holding the same bytes; `Packet.ts` then resets the copy's cursor to the header
size. -/
def Packet.createCopy (st : PacketStore) (p : PacketHandle) : PacketStore × PacketHandle :=
  (⟨st.bufs ++ [st.bufAt p.bufIndex]⟩,
   { p with bufIndex := st.bufs.length,
            dataPosition := Packet.totalHeaderSize p.isPartOfMessage })

/-- Claim C4: `Packet.createCopy` yields a packet owning an independent deep copy of
the byte buffer from creation: the copy's buffer reference differs from the
original's, its contents are byte-for-byte those of the original at creation,
and writing a byte through either packet's reference leaves the buffer seen
through the other packet's reference unchanged. -/
theorem claim_C4 (st : PacketStore) (p : PacketHandle) (h : p.bufIndex < st.bufs.length) :
    (Packet.createCopy st p).2.bufIndex ≠ p.bufIndex ∧
    (Packet.createCopy st p).1.bufAt (Packet.createCopy st p).2.bufIndex
      = st.bufAt p.bufIndex ∧
    (Packet.createCopy st p).2.dataPosition = Packet.totalHeaderSize p.isPartOfMessage ∧
    (∀ pos v,
      ((Packet.createCopy st p).1.writeByte (Packet.createCopy st p).2.bufIndex pos v).bufAt
          p.bufIndex
        = (Packet.createCopy st p).1.bufAt p.bufIndex) ∧
    (∀ pos v,
      ((Packet.createCopy st p).1.writeByte p.bufIndex pos v).bufAt
          (Packet.createCopy st p).2.bufIndex
        = (Packet.createCopy st p).1.bufAt (Packet.createCopy st p).2.bufIndex) := by
  refine ⟨by simp [Packet.createCopy]; omega, ?_, rfl, ?_, ?_⟩
  · simp [Packet.createCopy, PacketStore.bufAt, List.getD_eq_getElem?_getD,
      List.getElem?_concat_length]
  · intro pos v
    simp only [Packet.createCopy, PacketStore.writeByte, PacketStore.bufAt,
      List.getD_eq_getElem?_getD]
    rw [List.getElem?_set_ne (by omega)]
  · intro pos v
    simp only [Packet.createCopy, PacketStore.writeByte, PacketStore.bufAt,
      List.getD_eq_getElem?_getD]
    rw [List.getElem?_set_ne (by omega)]

theorem claim_C4_witness :
    (Packet.createCopy ⟨[Buffer.ofList [1, 2, 3, 4]]⟩
        { bufIndex := 0, isPartOfMessage := false, dataPosition := 3 }).2.bufIndex ≠ 0 ∧
    (Packet.createCopy ⟨[Buffer.ofList [1, 2, 3, 4]]⟩
        { bufIndex := 0, isPartOfMessage := false, dataPosition := 3 }).1.bufAt
        (Packet.createCopy ⟨[Buffer.ofList [1, 2, 3, 4]]⟩
          { bufIndex := 0, isPartOfMessage := false, dataPosition := 3 }).2.bufIndex
      = (⟨[Buffer.ofList [1, 2, 3, 4]]⟩ : PacketStore).bufAt 0 ∧
    (Packet.createCopy ⟨[Buffer.ofList [1, 2, 3, 4]]⟩
        { bufIndex := 0, isPartOfMessage := false, dataPosition := 3 }).2.dataPosition
      = Packet.totalHeaderSize false ∧
    (∀ pos v,
      ((Packet.createCopy ⟨[Buffer.ofList [1, 2, 3, 4]]⟩
          { bufIndex := 0, isPartOfMessage := false, dataPosition := 3 }).1.writeByte
          (Packet.createCopy ⟨[Buffer.ofList [1, 2, 3, 4]]⟩
            { bufIndex := 0, isPartOfMessage := false, dataPosition := 3 }).2.bufIndex pos v).bufAt 0
        = (Packet.createCopy ⟨[Buffer.ofList [1, 2, 3, 4]]⟩
            { bufIndex := 0, isPartOfMessage := false, dataPosition := 3 }).1.bufAt 0) ∧
    (∀ pos v,
      ((Packet.createCopy ⟨[Buffer.ofList [1, 2, 3, 4]]⟩
          { bufIndex := 0, isPartOfMessage := false, dataPosition := 3 }).1.writeByte 0 pos v).bufAt
          (Packet.createCopy ⟨[Buffer.ofList [1, 2, 3, 4]]⟩
            { bufIndex := 0, isPartOfMessage := false, dataPosition := 3 }).2.bufIndex
        = (Packet.createCopy ⟨[Buffer.ofList [1, 2, 3, 4]]⟩
            { bufIndex := 0, isPartOfMessage := false, dataPosition := 3 }).1.bufAt
            (Packet.createCopy ⟨[Buffer.ofList [1, 2, 3, 4]]⟩
              { bufIndex := 0, isPartOfMessage := false, dataPosition := 3 }).2.bufIndex) :=
  claim_C4 ⟨[Buffer.ofList [1, 2, 3, 4]]⟩
    { bufIndex := 0, isPartOfMessage := false, dataPosition := 3 } (by decide)

/-! ### Node registry (NodeList)

`NodeList.ts` / `LimitedNodeList.ts` are not among the provided sources - only
`tests/domain/networking/NodeList.unit.test.js` is.  The registry operations the
claims need are modelled from the spec (section 4.6) and pinned by that test:
`reset` clears all nodes and nulls the local session identity; the privileged
mute/kick operations validate the target identity (non-null, not the caller's
own, not the AVATAR_SELF_ID sentinel), then the kick permission, then (for mute)
the presence of an audio mixer, each failure logging a distinct warning (the
warning texts are the ones the test asserts) and performing no network action. -/

namespace Uuid

/-- `Uuid.NULL` (the null identity). -/
def NULL : Nat := 0

/-- `Uuid.AVATAR_SELF_ID` (the "self" sentinel identity). -/
def AVATAR_SELF_ID : Nat := 1

end Uuid

inductive NodeType where
  | DomainServer
  | EntityServer
  | AudioMixer
  | AvatarMixer
  | AssetServer
  | MessagesMixer
  deriving DecidableEq, Repr

structure NodeRec where
  uuid : Nat
  nodeType : NodeType
  deriving DecidableEq, Repr

structure NodeListState where
  nodes : List NodeRec
  sessionUUID : Nat
  permissions : Nat
  deriving DecidableEq, Repr

/-- An externally visible action of a registry operation. -/
inductive NetAction where
  | warning (msg : String)
  | packetSent (target : NodeType)
  deriving DecidableEq, Repr

/-- The `canKick` administrator bit of the permission bitset. -/
def canKick (permissions : Nat) : Bool := permissions.testBit 6

namespace NodeList

/-- Modelled from the spec: `soloNodeOfType(type)` returns the unique node of a
type expected to have at most one instance, or null. -/
def soloNodeOfType (s : NodeListState) (t : NodeType) : Option NodeRec :=
  s.nodes.find? (fun n => n.nodeType == t)

/-- Modelled from the spec: `reset(reason, isDomainServerInitiated)` clears all
nodes and resets the local session identity to null. -/
def reset (s : NodeListState) (reason : String) (isDomainServerInitiated : Bool) :
    NodeListState :=
  { s with nodes := [], sessionUUID := Uuid.NULL }

/-- Modelled from the spec: `muteNodeBySessionID` validates null/own/self identity,
then the kick permission, then the audio mixer's presence; each failing
precondition logs a warning and aborts without acting. -/
def muteNodeBySessionID (s : NodeListState) (nodeID : Nat) : NodeListState × List NetAction :=
  if nodeID = Uuid.NULL ∨ nodeID = s.sessionUUID ∨ nodeID = Uuid.AVATAR_SELF_ID then
    (s, [.warning "muteNodeBySessionID called with an invalid ID"])
  else if ¬ canKick s.permissions then
    (s, [.warning "You do not have permissions to mute this avatar"])
  else
    match soloNodeOfType s .AudioMixer with
    | none => (s, [.warning "Couldn't find audio mixer to send mute request"])
    | some _ => (s, [.packetSent .AudioMixer])

/-- Modelled from the spec: `kickNodeBySessionID` validates null/own/self identity,
then the kick permission; each failing precondition logs a warning and aborts
without acting. -/
def kickNodeBySessionID (s : NodeListState) (nodeID : Nat) : NodeListState × List NetAction :=
  if nodeID = Uuid.NULL ∨ nodeID = s.sessionUUID ∨ nodeID = Uuid.AVATAR_SELF_ID then
    (s, [.warning "kickNodeBySessionID called with an invalid ID"])
  else if ¬ canKick s.permissions then
    (s, [.warning "You do not have permissions to kick this avatar"])
  else
    (s, [.packetSent .DomainServer])

end NodeList

/-- Claim C7: after `NodeList.reset()` the registry contains no nodes - every node
present before the reset is absent, and `soloNodeOfType` returns null for every
type - the local session identity is null, and calling `reset` again is a no-op
leaving the registry in the same empty state (reset is idempotent). -/
theorem claim_C7 (s : NodeListState) (reason r2 : String) (b1 b2 : Bool) :
    (∀ t, NodeList.soloNodeOfType (NodeList.reset s reason b1) t = none) ∧
    (NodeList.reset s reason b1).sessionUUID = Uuid.NULL ∧
    (∀ n, n ∈ s.nodes → n ∉ (NodeList.reset s reason b1).nodes) ∧
    NodeList.reset (NodeList.reset s reason b1) r2 b2 = NodeList.reset s reason b1 :=
  ⟨fun _ => rfl, rfl, fun n _ => by simp [NodeList.reset], rfl⟩

theorem claim_C7_witness :
    (∀ t, NodeList.soloNodeOfType
      (NodeList.reset ⟨[⟨1234, .AudioMixer⟩], 42, 4095⟩ "Some reason" false) t = none) ∧
    (NodeList.reset (⟨[⟨1234, .AudioMixer⟩], 42, 4095⟩ : NodeListState)
      "Some reason" false).sessionUUID = Uuid.NULL ∧
    (∀ n, n ∈ (⟨[⟨1234, .AudioMixer⟩], 42, 4095⟩ : NodeListState).nodes →
      n ∉ (NodeList.reset ⟨[⟨1234, .AudioMixer⟩], 42, 4095⟩ "Some reason" false).nodes) ∧
    NodeList.reset (NodeList.reset ⟨[⟨1234, .AudioMixer⟩], 42, 4095⟩ "Some reason" false)
        "Some reason" false
      = NodeList.reset ⟨[⟨1234, .AudioMixer⟩], 42, 4095⟩ "Some reason" false :=
  claim_C7 ⟨[⟨1234, .AudioMixer⟩], 42, 4095⟩ "Some reason" "Some reason" false false

/-- Claim C8: for every permission bitset, calling `muteNodeBySessionID` or
`kickNodeBySessionID` with a null identity, the caller's own session identity, or
the AVATAR_SELF_ID sentinel logs the operation's invalid-ID warning (a different
message for mute than for kick) and performs no other action: the registry state
is returned unchanged and no packet is sent. -/
theorem claim_C8 (s : NodeListState) (nodeID : Nat)
    (h : nodeID = Uuid.NULL ∨ nodeID = s.sessionUUID ∨ nodeID = Uuid.AVATAR_SELF_ID) :
    NodeList.muteNodeBySessionID s nodeID
      = (s, [.warning "muteNodeBySessionID called with an invalid ID"]) ∧
    NodeList.kickNodeBySessionID s nodeID
      = (s, [.warning "kickNodeBySessionID called with an invalid ID"]) ∧
    (∀ t, NetAction.packetSent t ∉ (NodeList.muteNodeBySessionID s nodeID).2) ∧
    (∀ t, NetAction.packetSent t ∉ (NodeList.kickNodeBySessionID s nodeID).2) := by
  have h1 : NodeList.muteNodeBySessionID s nodeID
      = (s, [.warning "muteNodeBySessionID called with an invalid ID"]) := by
    simp only [NodeList.muteNodeBySessionID]
    rw [if_pos h]
  have h2 : NodeList.kickNodeBySessionID s nodeID
      = (s, [.warning "kickNodeBySessionID called with an invalid ID"]) := by
    simp only [NodeList.kickNodeBySessionID]
    rw [if_pos h]
  refine ⟨h1, h2, ?_, ?_⟩
  · intro t
    rw [h1]
    simp
  · intro t
    rw [h2]
    simp

theorem claim_C8_witness :
    (NodeList.muteNodeBySessionID ⟨[⟨1234, .AudioMixer⟩], 42, 4095⟩ 1
      = (⟨[⟨1234, .AudioMixer⟩], 42, 4095⟩,
         [.warning "muteNodeBySessionID called with an invalid ID"])) ∧
    (NodeList.kickNodeBySessionID ⟨[⟨1234, .AudioMixer⟩], 42, 4095⟩ 1
      = (⟨[⟨1234, .AudioMixer⟩], 42, 4095⟩,
         [.warning "kickNodeBySessionID called with an invalid ID"])) ∧
    (∀ t, NetAction.packetSent t
      ∉ (NodeList.muteNodeBySessionID ⟨[⟨1234, .AudioMixer⟩], 42, 4095⟩ 1).2) ∧
    (∀ t, NetAction.packetSent t
      ∉ (NodeList.kickNodeBySessionID ⟨[⟨1234, .AudioMixer⟩], 42, 4095⟩ 1).2) :=
  claim_C8 ⟨[⟨1234, .AudioMixer⟩], 42, 4095⟩ 1 (by decide)

/-! ### DomainServer connection state machine (DomainServer.ts) -/

inductive ConnectionState where
  | DISCONNECTED
  | CONNECTING
  | CONNECTED
  | REFUSED
  | ERROR
  deriving DecidableEq, Repr

structure DomainServerState where
  location : String
  state : ConnectionState
  refusalInfo : String
  errorInfo : String
  domainCheckInTimer : Bool
  deriving DecidableEq, Repr

/-- An externally visible action of a DomainServer operation. -/
inductive DomainServerEffect where
  | consoleError (msg : String)
  | handlerDisconnect (reason : String)
  | lookupStarted (location : String)
  | checkInScheduled
  deriving DecidableEq, Repr

namespace DomainServer

/-- The state of a freshly constructed `DomainServer` (DomainServer.ts lines
174-180). -/
def initialState : DomainServerState :=
  { location := "", state := .DISCONNECTED, refusalInfo := "", errorInfo := "",
    domainCheckInTimer := false }

/-- `DomainServer.#setState(state, info)` (DomainServer.ts lines 361-378): stores
the state, clears both detail strings, then sets the one matching the new state.
The `onStateChanged` callback is outward-only and carries no state. -/
def setState (s : DomainServerState) (st : ConnectionState) (info : String) :
    DomainServerState :=
  let s := { s with state := st, refusalInfo := "", errorInfo := "" }
  if s.state = .REFUSED then { s with refusalInfo := info }
  else if s.state = .ERROR then { s with errorInfo := info }
  else s

/-- `DomainServer.#stopDomainServerCheckins()` (DomainServer.ts lines 390-395). -/
def stopDomainServerCheckins (s : DomainServerState) : DomainServerState :=
  { s with domainCheckInTimer := false }

/-- `DomainServer.connect(location)` (DomainServer.ts lines 303-345).  The
`location` argument is `none` when the caller passed a non-string value (the
`typeof location === "string"` check fails and an error is logged).  Effects
record the calls that leave the state machine: `AddressManager.
handleLookupString`, the scheduling of domain-server check-ins, and
`DomainHandler.disconnect`. -/
def connect (s : DomainServerState) (location : Option String) :
    DomainServerState × List DomainServerEffect :=
  let oldLocation := s.location
  let step1 : DomainServerState × List DomainServerEffect :=
    match location with
    | some loc => ({ s with location := loc.trim }, [])
    | none => ({ s with location := "" },
        [.consoleError "ERROR: DomainServer.connect() location parameter not a string!"])
  let s1 := step1.1
  if s1.location = "" then
    let s2 := stopDomainServerCheckins s1
    (setState s2 .ERROR "No location specified.",
     step1.2 ++ [.handlerDisconnect "Invalid location"])
  else if s1.location = oldLocation ∧ s1.domainCheckInTimer then
    (s1, step1.2)
  else
    let s2 := setState s1 .CONNECTING ""
    (s2, step1.2 ++ [.lookupStarted (match location with | some l => l | none => "")]
      ++ (if s2.domainCheckInTimer then [] else [.checkInScheduled]))

/-- `DomainServer.disconnect()` (DomainServer.ts lines 350-358). -/
def disconnect (s : DomainServerState) : DomainServerState × List DomainServerEffect :=
  if s.state = .DISCONNECTED then (s, [])
  else (setState (stopDomainServerCheckins s) .DISCONNECTED "",
        [.handlerDisconnect "User disconnected"])

/-- The `domainConnectionRefused` slot (DomainServer.ts lines 402-408). -/
def domainConnectionRefused (s : DomainServerState) (reasonMessage : String) :
    DomainServerState :=
  setState s .REFUSED reasonMessage

/-- The `connectedToDomain` signal handler (DomainServer.ts lines 207-209). -/
def connectedToDomain (s : DomainServerState) : DomainServerState :=
  setState s .CONNECTED ""

/-- The `disconnectedFromDomain` signal handler (DomainServer.ts lines 210-215). -/
def disconnectedFromDomain (s : DomainServerState) : DomainServerState :=
  if s.state ≠ .DISCONNECTED then setState (stopDomainServerCheckins s) .DISCONNECTED ""
  else s

/-- The detail-string invariant of claim C10: `refusalInfo` is empty unless the
state is REFUSED, and `errorInfo` is empty unless the state is ERROR. -/
def infoInvariant (s : DomainServerState) : Prop :=
  (s.state ≠ .REFUSED → s.refusalInfo = "") ∧ (s.state ≠ .ERROR → s.errorInfo = "")

end DomainServer

/-- Claim C9: `DomainServer.connect(location)` with a non-string location or one
that trims to the empty string moves the state machine to ERROR with the
human-readable detail "No location specified." (so `errorInfo` is non-empty),
stops the periodic check-ins, and starts no connection attempt: no address
lookup and no check-in scheduling happen. -/
theorem claim_C9 (s : DomainServerState) (loc : Option String)
    (h : loc = none ∨ ∃ l, loc = some l ∧ l.trim = "") :
    (DomainServer.connect s loc).1.state = .ERROR ∧
    (DomainServer.connect s loc).1.errorInfo = "No location specified." ∧
    (DomainServer.connect s loc).1.errorInfo ≠ "" ∧
    (DomainServer.connect s loc).1.refusalInfo = "" ∧
    (DomainServer.connect s loc).1.domainCheckInTimer = false ∧
    (∀ l, DomainServerEffect.lookupStarted l ∉ (DomainServer.connect s loc).2) ∧
    DomainServerEffect.checkInScheduled ∉ (DomainServer.connect s loc).2 := by
  rcases h with hn | ⟨l, hl, htrim⟩
  · subst hn
    simp [DomainServer.connect, DomainServer.setState, DomainServer.stopDomainServerCheckins]
  · subst hl
    simp [DomainServer.connect, htrim, DomainServer.setState,
      DomainServer.stopDomainServerCheckins]

theorem claim_C9_witness :
    (DomainServer.connect DomainServer.initialState none).1.state = .ERROR ∧
    (DomainServer.connect DomainServer.initialState none).1.errorInfo
      = "No location specified." ∧
    (DomainServer.connect DomainServer.initialState none).1.errorInfo ≠ "" ∧
    (DomainServer.connect DomainServer.initialState none).1.refusalInfo = "" ∧
    (DomainServer.connect DomainServer.initialState none).1.domainCheckInTimer = false ∧
    (∀ l, DomainServerEffect.lookupStarted l
      ∉ (DomainServer.connect DomainServer.initialState none).2) ∧
    DomainServerEffect.checkInScheduled
      ∉ (DomainServer.connect DomainServer.initialState none).2 :=
  claim_C9 DomainServer.initialState none (Or.inl rfl)

/-- Claim C10: every DomainServer state transition keeps the invariant that
`refusalInfo` is empty whenever the state is not REFUSED and `errorInfo` is empty
whenever the state is not ERROR: the initial state satisfies it, `setState`
establishes it unconditionally - clearing both detail strings and setting at most
the one matching the new state - and every public transition (`connect`,
`disconnect`, and the connected / disconnected / refused signal handlers)
preserves it. -/
theorem claim_C10 :
    DomainServer.infoInvariant DomainServer.initialState ∧
    (∀ s st info, DomainServer.infoInvariant (DomainServer.setState s st info) ∧
      (DomainServer.setState s st info).refusalInfo
        = (if st = .REFUSED then info else "") ∧
      (DomainServer.setState s st info).errorInfo
        = (if st = .ERROR then info else "")) ∧
    (∀ s loc, DomainServer.infoInvariant s →
      DomainServer.infoInvariant (DomainServer.connect s loc).1) ∧
    (∀ s, DomainServer.infoInvariant s →
      DomainServer.infoInvariant (DomainServer.disconnect s).1) ∧
    (∀ s reason, DomainServer.infoInvariant (DomainServer.domainConnectionRefused s reason)) ∧
    (∀ s, DomainServer.infoInvariant (DomainServer.connectedToDomain s)) ∧
    (∀ s, DomainServer.infoInvariant s →
      DomainServer.infoInvariant (DomainServer.disconnectedFromDomain s)) := by
  have hset : ∀ s st info, DomainServer.infoInvariant (DomainServer.setState s st info) ∧
      (DomainServer.setState s st info).refusalInfo
        = (if st = .REFUSED then info else "") ∧
      (DomainServer.setState s st info).errorInfo
        = (if st = .ERROR then info else "") := by
    intro s st info
    cases st <;> simp [DomainServer.setState, DomainServer.infoInvariant]
  refine ⟨⟨fun _ => rfl, fun _ => rfl⟩, hset, ?_, ?_, ?_, ?_, ?_⟩
  · intro s loc hs
    cases loc with
    | none =>
      simp only [DomainServer.connect]
      simp only [if_true]
      exact (hset _ _ _).1
    | some l =>
      simp only [DomainServer.connect]
      by_cases h0 : l.trim = ""
      · rw [if_pos h0]
        exact (hset _ _ _).1
      · rw [if_neg h0]
        by_cases h1 : l.trim = s.location ∧ s.domainCheckInTimer = true
        · rw [if_pos h1]
          exact ⟨hs.1, hs.2⟩
        · rw [if_neg h1]
          exact (hset _ _ _).1
  · intro s hs
    simp only [DomainServer.disconnect]
    by_cases h0 : s.state = .DISCONNECTED
    · rw [if_pos h0]
      exact hs
    · rw [if_neg h0]
      exact (hset _ _ _).1
  · intro s reason
    exact (hset _ _ _).1
  · intro s
    exact (hset _ _ _).1
  · intro s hs
    simp only [DomainServer.disconnectedFromDomain]
    by_cases h0 : s.state ≠ .DISCONNECTED
    · rw [if_pos h0]
      exact (hset _ _ _).1
    · rw [if_neg h0]
      exact hs

theorem claim_C10_witness :
    (DomainServer.setState DomainServer.initialState .ERROR "boom").errorInfo = "boom" ∧
    (DomainServer.setState DomainServer.initialState .ERROR "boom").refusalInfo = "" ∧
    DomainServer.infoInvariant
      (DomainServer.connect DomainServer.initialState (some "ws://example:40102")).1 := by
  refine ⟨?_, ?_, ?_⟩
  · have h := (claim_C10.2.1 DomainServer.initialState .ERROR "boom").2.2
    simpa using h
  · have h := (claim_C10.2.1 DomainServer.initialState .ERROR "boom").2.1
    simpa using h
  · exact claim_C10.2.2.1 DomainServer.initialState (some "ws://example:40102") claim_C10.1
